import Mathlib

/-!
Shallow embedding of runtime/art_method.cc (Xposed-modified ART runtime):
method descriptors, the code locator (GetOatQuickMethodHeader), the catch
block resolver (FindCatchBlock), the invocation dispatcher (Invoke), the
hot-patch installer (EnableXposedHook) and its supporting operations
(CopyFrom, InvalidateCompiledCode, RegisterNative, UnregisterNative).

Machine integers are modelled as Nat; access flags are a 32-bit bit set.
Pointers are modelled as Nat addresses with 0 standing for nullptr.
CHECK failures abort the process and are modelled as a distinguished fatal
outcome; DCHECK failures are modelled the same way (debug-build semantics,
matching the fatal consistency-fault reading of the specification).
-/

namespace ArtModel

/-! Access flag constants, values as in runtime/modifiers.h of this ART
generation. -/

def kAccSynchronized : Nat := 0x00000020

def kAccConstructor : Nat := 0x00010000

def kAccNative : Nat := 0x00000100

def kAccAbstract : Nat := 0x00000400

def kAccFastNative : Nat := 0x00080000

def kAccDefault : Nat := 0x00400000

def kAccDefaultConflict : Nat := 0x00800000

/-- Modelled from the spec: the hooked-method attribute bit set by the
hot-patch installer (modifiers.h is not part of the excerpt; the exact bit
position is immaterial, it only needs to be distinct from the others). -/
def kAccXposedHookedMethod : Nat := 0x10000000

/-- Modelled from the spec: the original-method-backup attribute bit
marking a Backup Descriptor (modifiers.h is not part of the excerpt). -/
def kAccXposedOriginalMethod : Nat := 0x20000000

/-- All 32 bits set; used to model the uint32_t complement in
`flags & ~kRemoveFlags`. -/
def mask32 : Nat := 0xFFFFFFFF

/-- The flags cleared by EnableXposedHook (art_method.cc line 633). -/
def kRemoveFlags : Nat :=
  kAccNative ||| kAccSynchronized ||| kAccAbstract ||| kAccDefault ||| kAccDefaultConflict

/-- Modelled from the spec: the Hook Record stored in place of the native
method pointer (XposedHookInfo, declared outside the excerpt): the
reflected handle for the backup, the opaque user payload, and the Backup
Descriptor reference (a method id into the heap). Global references are
modelled as the referenced object ids themselves. -/
structure XposedHookInfo where
  reflectedMethod : Nat
  additionalInfo : Nat
  originalMethod : Nat
deriving DecidableEq

/-- Contents of the entry-point-for-foreign-calls field
(entry_point_from_jni_): a genuine native-method pointer, a Hook Record,
or empty. -/
inductive JniEntry where
  | null
  | native (addr : Nat)
  | hook (info : XposedHookInfo)
deriving DecidableEq

/-- The Method Descriptor (class ArtMethod), restricted to the fields the
excerpt reads or writes. Boolean fields model predicates whose definitions
live outside the excerpt (IsRuntimeMethod, IsRealProxyMethod,
IgnoreAotCode). -/
structure ArtMethod where
  accessFlags : Nat
  entryQuick : Nat
  entryJni : JniEntry
  codeItemOffset : Nat
  declaringClass : Nat
  profilingInfo : Option Nat
  hotnessCount : Nat
  isRuntimeMethodFlag : Bool
  isRealProxyFlag : Bool
  ignoreAotFlag : Bool
deriving DecidableEq

def ArtMethod.IsNative (m : ArtMethod) : Bool :=
  (m.accessFlags &&& kAccNative) != 0

def ArtMethod.IsFastNative (m : ArtMethod) : Bool :=
  (m.accessFlags &&& kAccFastNative) != 0

def ArtMethod.IsAbstract (m : ArtMethod) : Bool :=
  (m.accessFlags &&& kAccAbstract) != 0

def ArtMethod.IsConstructor (m : ArtMethod) : Bool :=
  (m.accessFlags &&& kAccConstructor) != 0

def ArtMethod.IsSynchronized (m : ArtMethod) : Bool :=
  (m.accessFlags &&& kAccSynchronized) != 0

def ArtMethod.IsDefault (m : ArtMethod) : Bool :=
  (m.accessFlags &&& kAccDefault) != 0

def ArtMethod.IsDefaultConflicting (m : ArtMethod) : Bool :=
  (m.accessFlags &&& kAccDefaultConflict) != 0

def ArtMethod.IsXposedHookedMethod (m : ArtMethod) : Bool :=
  (m.accessFlags &&& kAccXposedHookedMethod) != 0

def ArtMethod.IsXposedOriginalMethod (m : ArtMethod) : Bool :=
  (m.accessFlags &&& kAccXposedOriginalMethod) != 0

/-- Modelled from the spec: GetXposedOriginalMethod reads the Backup
Descriptor reference out of the Hook Record stored in the foreign-call
entry point (accessor declared outside the excerpt). -/
def ArtMethod.getXposedOriginalMethod (m : ArtMethod) : Nat :=
  match m.entryJni with
  | .hook info => info.originalMethod
  | _ => 0

/-- Modelled from the spec: a Code Region metadata header
(OatQuickMethodHeader), a contiguous range of executable code with its
start address and size. -/
structure OatQuickMethodHeader where
  codeStart : Nat
  codeSize : Nat
deriving DecidableEq

/-- Modelled from the spec: containment of a pc in the code range
[start, start + size). -/
def OatQuickMethodHeader.Contains (h : OatQuickMethodHeader) (pc : Nat) : Bool :=
  decide (h.codeStart ≤ pc) && decide (pc < h.codeStart + h.codeSize)

/-- Pending managed exceptions distinguished by the excerpt. -/
inductive ExceptionKind where
  | illegalArgument
  | noClassDefFound
  | stackOverflow
  | other (code : Nat)
deriving DecidableEq

/-- The runtime context consumed from collaborators: well-known stub and
trampoline addresses (pointer-identity sentinels), the JIT code cache
interface, and the AOT code table interface. findOatMethod returns the
quick-code address of the found oat method (0 for null code), or none when
no oat method is registered. codeSizeBefore models the code-size word of
the metadata header that sits immediately before a code entry point, so
the header built from an entry point starts at that entry point. -/
structure RuntimeEnv where
  quickGenericJniStub : Nat
  quickProxyInvokeHandler : Nat
  quickResolutionStub : Nat
  quickToInterpreterBridge : Nat
  quickInstrumentationEntryPoint : Nat
  quickInstrumentationExitPc : Nat
  jniDlsymLookupStub : Nat
  useJitCompilation : Bool
  hasJit : Bool
  jitContainsPc : Nat → Bool
  jitLookupMethodHeader : Nat → ArtMethod → Option OatQuickMethodHeader
  findOatMethod : ArtMethod → Option Nat
  codeSizeBefore : Nat → Nat

/-- OatQuickMethodHeader::FromEntryPoint: the header whose code range
starts at the given entry point. -/
def headerFromEntryPoint (env : RuntimeEnv) (entry : Nat) : OatQuickMethodHeader :=
  { codeStart := entry, codeSize := env.codeSizeBefore entry }

/-- Result of the code locator: a header, absent (nullptr), or a fatal
assertion failure. -/
inductive HeaderResult where
  | absent
  | header (h : OatQuickMethodHeader)
  | fatal
deriving DecidableEq

/-- The JIT code cache consultation step of GetOatQuickMethodHeader
(art_method.cc lines 422-438): when a JIT is present, a successful
LookupMethodHeader must contain pc (DCHECK line 428), and on a miss the
cache must not contain pc at all (DCHECK line 431); none means fall
through to the oat lookup. -/
def jitLookupStep (env : RuntimeEnv) (m : ArtMethod) (pc : Nat) : Option HeaderResult :=
  if env.hasJit then
    match env.jitLookupMethodHeader pc m with
    | some h => if h.Contains pc then some (.header h) else some .fatal
    | none => if env.jitContainsPc pc then some .fatal else none
  else none

/-- The oat-file tail of GetOatQuickMethodHeader (art_method.cc lines
440-478): the not-found special cases (resolution stub or instrumentation
entry with pc 0 on a native method), the unit-tests fallback returning the
header derived from the existing entry point without a containment check,
the generic-JNI/null oat code case, the pc 0 downcall, and the final
containment check (DCHECK line 474). -/
def oatStep (env : RuntimeEnv) (m : ArtMethod) (pc : Nat) : HeaderResult :=
  match env.findOatMethod m with
  | none =>
    if m.entryQuick == env.quickResolutionStub then
      if pc == 0 && m.IsNative then .absent else .fatal
    else if m.entryQuick == env.quickInstrumentationEntryPoint then
      if pc == 0 && m.IsNative then .absent else .fatal
    else
      .header (headerFromEntryPoint env m.entryQuick)
  | some oatCode =>
    if oatCode == 0 || oatCode == env.quickGenericJniStub then
      if m.IsNative then .absent else .fatal
    else if pc == 0 then
      if m.IsNative then .header (headerFromEntryPoint env oatCode) else .fatal
    else if (headerFromEntryPoint env oatCode).Contains pc then
      .header (headerFromEntryPoint env oatCode)
    else
      .fatal

/-- ArtMethod::GetOatQuickMethodHeader (art_method.cc lines 386-479): the
code locator. The caller contract DCHECK_NE(pc, instrumentation exit pc)
(line 389) and the nullness CHECK on the entry point (line 397) are
modelled as fatal; runtime methods have no header; the generic JNI stub
and the proxy/hook handler carry no metadata; the fast path returns the
entry-point header when it contains pc; otherwise the JIT cache and then
the oat file are consulted. -/
def ArtMethod.getOatQuickMethodHeader (env : RuntimeEnv) (m : ArtMethod) (pc : Nat) :
    HeaderResult :=
  if pc == env.quickInstrumentationExitPc then .fatal
  else if m.isRuntimeMethodFlag then .absent
  else if m.entryQuick == 0 then .fatal
  else if m.entryQuick == env.quickGenericJniStub then .absent
  else if m.entryQuick == env.quickProxyInvokeHandler then
    if m.IsXposedHookedMethod || (m.isRealProxyFlag && !m.IsConstructor) then .absent
    else .fatal
  else if m.entryQuick != env.quickResolutionStub
          && m.entryQuick != env.quickToInterpreterBridge
          && (headerFromEntryPoint env m.entryQuick).Contains pc then
    .header (headerFromEntryPoint env m.entryQuick)
  else
    match jitLookupStep env m pc with
    | some r => r
    | none => oatStep env m pc

/-! Hot-patch installer state. Methods live in a heap addressed by method
ids (Nat); an Execution Frame carries the method id it is executing. -/

/-- A mutator thread as seen by the installer: its stack of Execution
Frames (each the method reference of that frame) and whether its
unwinding instrumentation has been (re)installed. -/
structure ThreadState where
  frames : List Nat
  instrumented : Bool
deriving DecidableEq

/-- Safepoint-ordering events emitted by EnableXposedHook: suspendAll and
resumeAll delimit the ScopedSuspendAll scope (acquired line 613, released
with the scoped destructors at function exit); stackReplace and
instrument record the per-thread work of
StackReplaceMethodAndInstallInstrumentation. -/
inductive Event where
  | suspendAll
  | resumeAll
  | stackReplace (tid : Nat)
  | instrument (tid : Nat)
deriving DecidableEq

/-- The mutable runtime state touched by the hot-patch installer: the
method heap, the linear-alloc allocation cursor for fresh methods, the
cursor for freshly created reflected objects, the mutator threads, and
the pending managed exception of the calling thread. -/
structure RuntimeState where
  methods : Nat → ArtMethod
  nextMethodId : Nat
  nextRef : Nat
  threads : List ThreadState
  pendingException : Option ExceptionKind

/-- ArtMethod::CopyFrom (art_method.cc lines 492-521): raw byte copy of
src, repair of the declaring-class back-reference, demotion of a JIT
entry point to the interpreter bridge when the copied entry point lives in
the JIT code cache, profiling-info clearing for non-native sources, and a
hotness reset. Returns the new contents of the destination method (the
memcpy overwrites every destination field, so the prior destination value
is irrelevant). -/
def ArtMethod.copyFrom (env : RuntimeEnv) (src : ArtMethod) : ArtMethod :=
  let d := { src with declaringClass := src.declaringClass }
  let d := if env.useJitCompilation && env.jitContainsPc d.entryQuick then
             { d with entryQuick := env.quickToInterpreterBridge }
           else d
  let d := if !src.IsNative then { d with profilingInfo := none } else d
  { d with hotnessCount := 0 }

/-- StackReplaceMethodAndInstallInstrumentation (art_method.cc lines
536-559) for one thread: walk the stack, repoint every frame whose method
reference equals search to replace, then reinstall instrumentation on the
thread. -/
def stackReplaceMethodAndInstallInstrumentation (search replace : Nat)
    (t : ThreadState) : ThreadState :=
  { frames := t.frames.map fun f => if f == search then replace else f,
    instrumented := true }

/-- Outcome of EnableXposedHook as seen by the caller. -/
inductive HookOutcome where
  | ok
  | alreadyHooked
  | errorBackup
deriving DecidableEq

/-- ArtMethod::EnableXposedHook (art_method.cc lines 561-638) acting on
the method with id d in state s, with the opaque caller payload
additionalInfo. Already hooked: immediate no-op. Backup Descriptor:
IllegalArgumentException, nothing mutated. Otherwise: allocate the backup
from the linear alloc, CopyFrom the descriptor, mark it
original-method-backup, create the reflected handle, build the Hook
Record, and inside the safepoint overwrite the foreign-call entry point
with the Hook Record, the compiled-code entry point with the proxy
dispatch handler, clear the code-item offset, adjust the access flags,
and rewrite every frame of every thread that references d. The
collaborator-only calls (InvalidateCallersForMethod, MoveObsoleteMethod)
mutate no state modelled here. The returned trace records the safepoint
ordering. -/
def enableXposedHook (env : RuntimeEnv) (s : RuntimeState) (d : Nat)
    (additionalInfo : Nat) : RuntimeState × HookOutcome × List Event :=
  let m := s.methods d
  if m.IsXposedHookedMethod then
    (s, .alreadyHooked, [])
  else if m.IsXposedOriginalMethod then
    ({ s with pendingException := some .illegalArgument }, .errorBackup, [])
  else
    let backupId := s.nextMethodId
    let backup0 := ArtMethod.copyFrom env m
    let backup := { backup0 with
      accessFlags := backup0.accessFlags ||| kAccXposedOriginalMethod }
    let reflectedRef := s.nextRef
    let hookInfo : XposedHookInfo :=
      { reflectedMethod := reflectedRef,
        additionalInfo := additionalInfo,
        originalMethod := backupId }
    let hooked := { m with
      entryJni := .hook hookInfo,
      entryQuick := env.quickProxyInvokeHandler,
      codeItemOffset := 0,
      accessFlags := (m.accessFlags &&& (mask32 ^^^ kRemoveFlags)) ||| kAccXposedHookedMethod }
    let methods1 := Function.update (Function.update s.methods backupId backup) d hooked
    let replace := (methods1 d).getXposedOriginalMethod
    let newThreads := s.threads.map (stackReplaceMethodAndInstallInstrumentation d replace)
    let trace := Event.suspendAll ::
      ((List.range s.threads.length).flatMap fun i => [Event.stackReplace i, Event.instrument i])
      ++ [Event.resumeAll]
    ({ s with
        methods := methods1,
        nextMethodId := s.nextMethodId + 1,
        nextRef := s.nextRef + 1,
        threads := newThreads },
     .ok, trace)

/-! Invocation dispatcher. -/

/-- The per-call context of ArtMethod::Invoke: whether the runtime is
started, whether the debugger forces interpretation, the native frame
address and the stack end bound of the calling thread, and the values the
collaborator execution paths deposit into the result (the interpreter,
the quick invoke stubs, and deoptimization-resume). -/
structure InvokeEnv where
  runtimeStarted : Bool
  forcedInterpreter : Bool
  frameAddress : Nat
  stackEnd : Nat
  interpreterResult : Int
  quickStubResult : Int
  deoptPending : Bool
  deoptResult : Int

/-- The externally observable effect of one ArtMethod::Invoke call: what
was written through the result pointer (none when nothing was written),
whether a StackOverflowError was raised, and whether the managed-stack
transition fragment was pushed and popped. -/
structure InvokeEffect where
  resultWrite : Option Int
  threwStackOverflow : Bool
  pushedFragment : Bool
  poppedFragment : Bool
deriving DecidableEq

/-- ArtMethod::Invoke (art_method.cc lines 243-320). The upfront stack
bound check returns after raising StackOverflowError, before the
transition fragment is pushed. The kIsDebugBuild-only assertion block
(lines 250-254) checks caller preconditions and is modelled as a no-op
(release semantics). A not-started runtime or forced interpretation runs
the interpreter; a non-null quick entry point runs the invoke stub and
resumes in the interpreter on the deoptimization signal; a null entry
point writes a zero JValue through a non-null result pointer (lines
310-315). The interpreter and the stub write the result only through a
non-null pointer. -/
def ArtMethod.invoke (env : InvokeEnv) (m : ArtMethod) (resultNonNull : Bool) :
    InvokeEffect :=
  if env.frameAddress < env.stackEnd then
    { resultWrite := none, threwStackOverflow := true,
      pushedFragment := false, poppedFragment := false }
  else if !env.runtimeStarted || env.forcedInterpreter then
    { resultWrite := if resultNonNull then some env.interpreterResult else none,
      threwStackOverflow := false, pushedFragment := true, poppedFragment := true }
  else if m.entryQuick != 0 then
    { resultWrite :=
        if resultNonNull then
          some (if env.deoptPending then env.deoptResult else env.quickStubResult)
        else none,
      threwStackOverflow := false, pushedFragment := true, poppedFragment := true }
  else
    { resultWrite := if resultNonNull then some 0 else none,
      threwStackOverflow := false, pushedFragment := true, poppedFragment := true }

/-! Catch block resolver. -/

/-- One entry of the exception-handler table covering the faulting dex pc,
in table order: its handler type index (none models kDexNoIndex16, the
catch-all) and its handler address. -/
structure CatchHandlerEntry where
  typeIdx : Option Nat
  handlerAddress : Nat
deriving DecidableEq

/-- Collaborators of FindCatchBlock: resolution of a handler type index to
a class (GetClassFromTypeIndex with resolve, none on failure),
assignability of the thrown exception class to a handler class
(IsAssignableFrom on the handler class), and whether the first
instruction at a handler address is MOVE_EXCEPTION. -/
structure CatchEnv where
  resolveType : Nat → Option Nat
  isAssignableFrom : Nat → Nat → Bool
  moveExceptionAt : Nat → Bool

/-- Thread-local state threaded through the handler scan: the pending
exception and the warnings logged so far (by unresolved handler type
index). -/
structure CatchScanState where
  pendingException : Option ExceptionKind
  warnings : List Nat
deriving DecidableEq

/-- The handler-table scan of FindCatchBlock (art_method.cc lines
205-230). A catch-all entry matches unconditionally and stops the scan. A
typed entry resolves its type: on failure the NoClassDefFoundError just
raised is cleared, a warning is logged, and the scan continues; on
success the entry matches when the handler class is assignable-from the
thrown exception class. Returns the found handler address (none models
kDexNoIndex) and the final scan state. -/
def catchScan (env : CatchEnv) (exceptionType : Nat) :
    List CatchHandlerEntry → CatchScanState → Option Nat × CatchScanState
  | [], st => (none, st)
  | entry :: rest, st =>
    match entry.typeIdx with
    | none => (some entry.handlerAddress, st)
    | some idx =>
      match env.resolveType idx with
      | none =>
        let raised := { st with pendingException := some ExceptionKind.noClassDefFound }
        let cleared := { raised with pendingException := none }
        catchScan env exceptionType rest
          { cleared with warnings := cleared.warnings ++ [idx] }
      | some klass =>
        if env.isAssignableFrom klass exceptionType then
          (some entry.handlerAddress, st)
        else
          catchScan env exceptionType rest st

/-- Observable outcome of FindCatchBlock: the returned handler address
(none models kDexNoIndex), the memory behind the has_no_move_exception
out-parameter after the call, the pending exception after the call, and
the warnings logged. -/
structure FindCatchResult where
  foundDexPc : Option Nat
  hasNoMoveException : Bool
  pendingException : Option ExceptionKind
  warnings : List Nat
deriving DecidableEq

/-- ArtMethod::FindCatchBlock (art_method.cc lines 193-241). The in-flight
exception is set aside and the thread exception cleared; the handler
table entries covering dex_pc are scanned in order; on a match the
out-parameter is set to whether the first instruction at the handler
address is not MOVE_EXCEPTION, and on no match the out-parameter memory
(hasNoMoveExceptionIn) is left untouched; finally the set-aside exception
is put back when it was non-null. -/
def findCatchBlock (env : CatchEnv) (handlers : List CatchHandlerEntry)
    (exceptionType : Nat) (inFlight : Option ExceptionKind)
    (hasNoMoveExceptionIn : Bool) : FindCatchResult :=
  let st0 : CatchScanState := { pendingException := none, warnings := [] }
  let scanned := catchScan env exceptionType handlers st0
  let outParam :=
    match scanned.1 with
    | some addr => !(env.moveExceptionAt addr)
    | none => hasNoMoveExceptionIn
  let finalPending :=
    match inFlight with
    | some e => some e
    | none => scanned.2.pendingException
  { foundDexPc := scanned.1,
    hasNoMoveException := outParam,
    pendingException := finalPending,
    warnings := scanned.2.warnings }

/-! Compiled-code invalidation and native registration. -/

/-- Outcome of InvalidateCompiledCode: a fatal CHECK failure, a thrown
managed exception (never produced by this routine, present so the
reported-error reading of the operation is expressible), or success with
the updated method and whether JIT invalidation was requested from the
code cache collaborator. -/
inductive InvalidateResult where
  | fatal
  | thrown (e : ExceptionKind) (m : ArtMethod)
  | ok (m : ArtMethod) (jitInvalidated : Bool)
deriving DecidableEq

/-- Whether an InvalidateCompiledCode outcome is a synchronously reported
(thrown) usage error. -/
def InvalidateResult.isThrown : InvalidateResult → Bool
  | .thrown _ _ => true
  | _ => false

/-- ArtMethod::InvalidateCompiledCode (art_method.cc lines 523-534).
CHECK(!IsXposedHookedMethod()) aborts on a hooked descriptor; otherwise
the ignore-AOT mark is set (when not already set), and either the JIT
code cache is asked to invalidate the compiled code for the method
(when JIT compilation is in use) or the compiled-code entry point falls
back to the interpreter bridge. -/
def ArtMethod.invalidateCompiledCode (env : RuntimeEnv) (m : ArtMethod) :
    InvalidateResult :=
  if m.IsXposedHookedMethod then .fatal
  else
    let m1 := if !m.ignoreAotFlag then { m with ignoreAotFlag := true } else m
    if env.useJitCompilation then .ok m1 true
    else .ok { m1 with entryQuick := env.quickToInterpreterBridge } false

/-- Outcome of RegisterNative and UnregisterNative on the method heap: a
fatal CHECK failure, exhaustion of the hooked-redirect fuel bound, or the
updated heap. -/
inductive NativeRegResult where
  | fatal
  | outOfFuel
  | ok (heap : Nat → ArtMethod)

/-- ArtMethod::RegisterNative (art_method.cc lines 322-334) on the method
with id mid. A hooked method redirects to its Backup Descriptor (the fuel
bounds that redirect chain; every reachable chain has length at most
one). CHECK failures: not native, already fast native, or a null native
method. is_fast sets the fast-native flag before the native method is
installed in the foreign-call entry point. -/
def registerNative (env : RuntimeEnv) (fuel : Nat) (heap : Nat → ArtMethod)
    (mid nativeMethod : Nat) (isFast : Bool) : NativeRegResult :=
  if (heap mid).IsXposedHookedMethod then
    match fuel with
    | 0 => .outOfFuel
    | f + 1 =>
      registerNative env f heap (heap mid).getXposedOriginalMethod nativeMethod isFast
  else if !(heap mid).IsNative then .fatal
  else if (heap mid).IsFastNative then .fatal
  else if nativeMethod == 0 then .fatal
  else
    let m1 := if isFast then
        { heap mid with accessFlags := (heap mid).accessFlags ||| kAccFastNative }
      else heap mid
    .ok (Function.update heap mid { m1 with entryJni := .native nativeMethod })

/-- ArtMethod::UnregisterNative (art_method.cc lines 336-344) on the
method with id mid. A hooked method redirects to its Backup Descriptor.
CHECK(IsNative() && !IsFastNative()) aborts otherwise; then the stub that
looks the native pointer up via dlsym is restored through RegisterNative.
-/
def unregisterNative (env : RuntimeEnv) (fuel : Nat) (heap : Nat → ArtMethod)
    (mid : Nat) : NativeRegResult :=
  if (heap mid).IsXposedHookedMethod then
    match fuel with
    | 0 => .outOfFuel
    | f + 1 => unregisterNative env f heap (heap mid).getXposedOriginalMethod
  else if !((heap mid).IsNative && !(heap mid).IsFastNative) then .fatal
  else registerNative env fuel heap mid env.jniDlsymLookupStub false

/-! Concrete sample inputs used by witnesses and counterexamples. -/

/-- A concrete runtime environment: distinct addresses for the well-known
stubs, no JIT, no oat table. -/
def sampleEnv : RuntimeEnv :=
  { quickGenericJniStub := 10,
    quickProxyInvokeHandler := 20,
    quickResolutionStub := 30,
    quickToInterpreterBridge := 40,
    quickInstrumentationEntryPoint := 50,
    quickInstrumentationExitPc := 99,
    jniDlsymLookupStub := 60,
    useJitCompilation := false,
    hasJit := false,
    jitContainsPc := fun _ => false,
    jitLookupMethodHeader := fun _ _ => none,
    findOatMethod := fun _ => none,
    codeSizeBefore := fun _ => 0 }

/-- A concrete ordinary method: native and synchronized, with compiled
code at address 100 and a registered native pointer. -/
def plainMethod : ArtMethod :=
  { accessFlags := kAccNative ||| kAccSynchronized,
    entryQuick := 100,
    entryJni := .native 7,
    codeItemOffset := 77,
    declaringClass := 3,
    profilingInfo := some 5,
    hotnessCount := 9,
    isRuntimeMethodFlag := false,
    isRealProxyFlag := false,
    ignoreAotFlag := false }

/-- A concrete hooked method: hooked-method bit set and a Hook Record in
the foreign-call entry point. -/
def hookedMethod : ArtMethod :=
  { plainMethod with
    accessFlags := kAccXposedHookedMethod,
    entryQuick := 20,
    entryJni := .hook { reflectedMethod := 1, additionalInfo := 2, originalMethod := 3 } }

/-- A concrete Backup Descriptor: original-method-backup bit set. -/
def backupMethod : ArtMethod :=
  { plainMethod with accessFlags := kAccNative ||| kAccXposedOriginalMethod }

/-- A concrete plain non-native method whose quick entry point is the
interpreter bridge of sampleEnv. -/
def bridgeMethod : ArtMethod :=
  { accessFlags := 0,
    entryQuick := 40,
    entryJni := .null,
    codeItemOffset := 0,
    declaringClass := 0,
    profilingInfo := none,
    hotnessCount := 0,
    isRuntimeMethodFlag := false,
    isRealProxyFlag := false,
    ignoreAotFlag := false }

/-- A concrete method with real compiled code at address 100. -/
def compiledMethod : ArtMethod := { bridgeMethod with entryQuick := 100 }

/-- A concrete method with no quick code. -/
def nullCodeMethod : ArtMethod := { bridgeMethod with entryQuick := 0 }

/-- A concrete plain native method awaiting registration. -/
def nativeSampleMethod : ArtMethod := { bridgeMethod with accessFlags := kAccNative }

/-- sampleEnv with a non-trivial code size before every entry point. -/
def wideHeaderEnv : RuntimeEnv := { sampleEnv with codeSizeBefore := fun _ => 50 }

/-- A concrete runtime state: every method id maps to plainMethod, two
mutator threads with frames on method 0. -/
def sampleState : RuntimeState :=
  { methods := fun _ => plainMethod,
    nextMethodId := 1000,
    nextRef := 2000,
    threads := [{ frames := [0, 3], instrumented := false },
                { frames := [5, 0, 0], instrumented := false }],
    pendingException := none }

/-- sampleState with every method hooked. -/
def hookedState : RuntimeState := { sampleState with methods := fun _ => hookedMethod }

/-- sampleState with every method a Backup Descriptor. -/
def backupState : RuntimeState := { sampleState with methods := fun _ => backupMethod }

/-- A concrete catch resolver environment: type index 1 resolves to class
11, every other index fails to resolve; class 11 is assignable-from class
7; the instruction at handler address 500 is MOVE_EXCEPTION. -/
def sampleCatchEnv : CatchEnv :=
  { resolveType := fun idx => if idx == 1 then some 11 else none,
    isAssignableFrom := fun k e => k == 11 && e == 7,
    moveExceptionAt := fun addr => addr == 500 }

/-- A concrete invocation context: runtime started, no forced
interpretation, ample native stack. -/
def sampleInvokeEnv : InvokeEnv :=
  { runtimeStarted := true,
    forcedInterpreter := false,
    frameAddress := 100,
    stackEnd := 50,
    interpreterResult := 11,
    quickStubResult := 22,
    deoptPending := false,
    deoptResult := 33 }

/-- sampleInvokeEnv with the native frame address below the stack end
bound. -/
def overflowInvokeEnv : InvokeEnv := { sampleInvokeEnv with frameAddress := 10 }

/-! Theorems. -/

theorem flagMask_bne_eq_testBit (f n : Nat) : ((f &&& 2 ^ n) != 0) = f.testBit n := by
  rw [Nat.and_two_pow]
  cases hb : f.testBit n
  · simp
  · simp only [Bool.toNat_true, one_mul, bne_iff_ne, ne_eq]
    positivity

theorem hookAdjustedFlags_testBit_removed (f i : Nat)
    (h1 : Nat.testBit (mask32 ^^^ kRemoveFlags) i = false)
    (h2 : Nat.testBit kAccXposedHookedMethod i = false) :
    Nat.testBit ((f &&& (mask32 ^^^ kRemoveFlags)) ||| kAccXposedHookedMethod) i = false := by
  rw [Nat.testBit_lor, Nat.testBit_land, h1, h2]
  simp

theorem hookAdjustedFlags_testBit_set (f i : Nat)
    (h2 : Nat.testBit kAccXposedHookedMethod i = true) :
    Nat.testBit ((f &&& (mask32 ^^^ kRemoveFlags)) ||| kAccXposedHookedMethod) i = true := by
  rw [Nat.testBit_lor, h2]
  simp

theorem hookAdjusted_mask_zero (f c n : Nat) (hc : c = 2 ^ n)
    (h1 : Nat.testBit (mask32 ^^^ kRemoveFlags) n = false)
    (h2 : Nat.testBit kAccXposedHookedMethod n = false) :
    ((((f &&& (mask32 ^^^ kRemoveFlags)) ||| kAccXposedHookedMethod) &&& c) != 0) = false := by
  subst hc
  rw [flagMask_bne_eq_testBit, hookAdjustedFlags_testBit_removed f n h1 h2]

theorem hookAdjusted_mask_one (f c n : Nat) (hc : c = 2 ^ n)
    (h2 : Nat.testBit kAccXposedHookedMethod n = true) :
    ((((f &&& (mask32 ^^^ kRemoveFlags)) ||| kAccXposedHookedMethod) &&& c) != 0) = true := by
  subst hc
  rw [flagMask_bne_eq_testBit, hookAdjustedFlags_testBit_set f n h2]

theorem enableXposedHook_hooked_record (env : RuntimeEnv) (s : RuntimeState) (d p : Nat)
    (hnh : (s.methods d).IsXposedHookedMethod = false)
    (hnb : (s.methods d).IsXposedOriginalMethod = false) :
    (enableXposedHook env s d p).1.methods d =
      { s.methods d with
          entryJni := JniEntry.hook
            { reflectedMethod := s.nextRef, additionalInfo := p,
              originalMethod := s.nextMethodId },
          entryQuick := env.quickProxyInvokeHandler,
          codeItemOffset := 0,
          accessFlags := ((s.methods d).accessFlags &&& (mask32 ^^^ kRemoveFlags))
            ||| kAccXposedHookedMethod } := by
  unfold enableXposedHook
  rw [if_neg (by simp [hnh]), if_neg (by simp [hnb])]
  simp [Function.update_same]

theorem enableXposedHook_ok_outcome (env : RuntimeEnv) (s : RuntimeState) (d p : Nat)
    (hnh : (s.methods d).IsXposedHookedMethod = false)
    (hnb : (s.methods d).IsXposedOriginalMethod = false) :
    (enableXposedHook env s d p).2.1 = HookOutcome.ok := by
  unfold enableXposedHook
  rw [if_neg (by simp [hnh]), if_neg (by simp [hnb])]

/-- C1: after EnableXposedHook succeeds on a descriptor that is neither
hooked nor a backup, the foreign-call (JNI) entry point holds the Hook
Record (reflected backup handle, caller payload, Backup Descriptor), the
compiled-code entry point is the proxy/hook dispatch handler, the
code-item offset is 0, the native, synchronized, abstract, default and
default-conflict access-flag bits are cleared, and the hooked-method bit
is set. -/
theorem C1_enableHook_postconditions (env : RuntimeEnv) (s : RuntimeState) (d p : Nat)
    (hnh : (s.methods d).IsXposedHookedMethod = false)
    (hnb : (s.methods d).IsXposedOriginalMethod = false) :
    (enableXposedHook env s d p).2.1 = HookOutcome.ok ∧
    ((enableXposedHook env s d p).1.methods d).entryJni =
      JniEntry.hook { reflectedMethod := s.nextRef, additionalInfo := p,
                      originalMethod := s.nextMethodId } ∧
    ((enableXposedHook env s d p).1.methods d).entryQuick = env.quickProxyInvokeHandler ∧
    ((enableXposedHook env s d p).1.methods d).codeItemOffset = 0 ∧
    ((enableXposedHook env s d p).1.methods d).IsNative = false ∧
    ((enableXposedHook env s d p).1.methods d).IsSynchronized = false ∧
    ((enableXposedHook env s d p).1.methods d).IsAbstract = false ∧
    ((enableXposedHook env s d p).1.methods d).IsDefault = false ∧
    ((enableXposedHook env s d p).1.methods d).IsDefaultConflicting = false ∧
    ((enableXposedHook env s d p).1.methods d).IsXposedHookedMethod = true := by
  have hupd := enableXposedHook_hooked_record env s d p hnh hnb
  refine ⟨enableXposedHook_ok_outcome env s d p hnh hnb, ?_, ?_, ?_, ?_, ?_, ?_, ?_, ?_, ?_⟩
    <;> rw [hupd]
  · simp only [ArtMethod.IsNative]
    exact hookAdjusted_mask_zero _ _ 8 (by norm_num [kAccNative]) (by decide) (by decide)
  · simp only [ArtMethod.IsSynchronized]
    exact hookAdjusted_mask_zero _ _ 5 (by norm_num [kAccSynchronized]) (by decide) (by decide)
  · simp only [ArtMethod.IsAbstract]
    exact hookAdjusted_mask_zero _ _ 10 (by norm_num [kAccAbstract]) (by decide) (by decide)
  · simp only [ArtMethod.IsDefault]
    exact hookAdjusted_mask_zero _ _ 22 (by norm_num [kAccDefault]) (by decide) (by decide)
  · simp only [ArtMethod.IsDefaultConflicting]
    exact hookAdjusted_mask_zero _ _ 23 (by norm_num [kAccDefaultConflict]) (by decide) (by decide)
  · simp only [ArtMethod.IsXposedHookedMethod]
    exact hookAdjusted_mask_one _ _ 28 (by norm_num [kAccXposedHookedMethod]) (by decide)

/-- Witness for C1 at a concrete state: method 0 of sampleState is
neither hooked nor a backup, and the postconditions hold after hooking it
with payload 5. -/
theorem C1_witness :
    ((sampleState.methods 0).IsXposedHookedMethod = false ∧
     (sampleState.methods 0).IsXposedOriginalMethod = false) ∧
    ((enableXposedHook sampleEnv sampleState 0 5).2.1 = HookOutcome.ok ∧
     ((enableXposedHook sampleEnv sampleState 0 5).1.methods 0).entryJni =
       JniEntry.hook { reflectedMethod := sampleState.nextRef, additionalInfo := 5,
                       originalMethod := sampleState.nextMethodId } ∧
     ((enableXposedHook sampleEnv sampleState 0 5).1.methods 0).entryQuick =
       sampleEnv.quickProxyInvokeHandler ∧
     ((enableXposedHook sampleEnv sampleState 0 5).1.methods 0).codeItemOffset = 0 ∧
     ((enableXposedHook sampleEnv sampleState 0 5).1.methods 0).IsNative = false ∧
     ((enableXposedHook sampleEnv sampleState 0 5).1.methods 0).IsSynchronized = false ∧
     ((enableXposedHook sampleEnv sampleState 0 5).1.methods 0).IsAbstract = false ∧
     ((enableXposedHook sampleEnv sampleState 0 5).1.methods 0).IsDefault = false ∧
     ((enableXposedHook sampleEnv sampleState 0 5).1.methods 0).IsDefaultConflicting = false ∧
     ((enableXposedHook sampleEnv sampleState 0 5).1.methods 0).IsXposedHookedMethod = true) :=
  ⟨⟨by decide, by decide⟩,
   C1_enableHook_postconditions sampleEnv sampleState 0 5 (by decide) (by decide)⟩

/-- C2: EnableXposedHook on an already hooked descriptor is a complete
no-op — the state (hence the existing Hook Record and its payload) is
returned untouched; on a Backup Descriptor it raises
IllegalArgumentException and mutates no descriptor. -/
theorem C2_reject_hooked_and_backup (env : RuntimeEnv) (s : RuntimeState) (d p : Nat) :
    ((s.methods d).IsXposedHookedMethod = true →
      enableXposedHook env s d p = (s, HookOutcome.alreadyHooked, []) ∧
      ((enableXposedHook env s d p).1.methods d).entryJni = (s.methods d).entryJni) ∧
    ((s.methods d).IsXposedHookedMethod = false →
     (s.methods d).IsXposedOriginalMethod = true →
      enableXposedHook env s d p =
        ({ s with pendingException := some ExceptionKind.illegalArgument },
         HookOutcome.errorBackup, []) ∧
      (enableXposedHook env s d p).1.methods = s.methods) := by
  constructor
  · intro hh
    have he : enableXposedHook env s d p = (s, HookOutcome.alreadyHooked, []) := by
      unfold enableXposedHook
      rw [if_pos hh]
    exact ⟨he, by rw [he]⟩
  · intro hh hb
    have he : enableXposedHook env s d p =
        ({ s with pendingException := some ExceptionKind.illegalArgument },
         HookOutcome.errorBackup, []) := by
      unfold enableXposedHook
      rw [if_neg (by simp [hh]), if_pos hb]
    exact ⟨he, by rw [he]⟩

/-- Witness for C2 at concrete states: hooking the hooked method of
hookedState is a no-op, and hooking the Backup Descriptor of backupState
raises IllegalArgumentException leaving the method heap untouched. -/
theorem C2_witness :
    (enableXposedHook sampleEnv hookedState 0 5 =
       (hookedState, HookOutcome.alreadyHooked, []) ∧
     ((enableXposedHook sampleEnv hookedState 0 5).1.methods 0).entryJni =
       (hookedState.methods 0).entryJni) ∧
    (enableXposedHook sampleEnv backupState 0 5 =
       ({ backupState with pendingException := some ExceptionKind.illegalArgument },
        HookOutcome.errorBackup, []) ∧
     (enableXposedHook sampleEnv backupState 0 5).1.methods = backupState.methods) :=
  ⟨(C2_reject_hooked_and_backup sampleEnv hookedState 0 5).1 (by decide),
   (C2_reject_hooked_and_backup sampleEnv backupState 0 5).2 (by decide) (by decide)⟩

/-- C3: after a successful EnableXposedHook, every Execution Frame of
every thread that referenced the hooked descriptor has been repointed to
the Backup Descriptor, frames referencing other methods are unchanged,
instrumentation has been reinstalled on each thread, and all of this
happens before the safepoint is released (every stackReplace and
instrument event precedes the resumeAll event in the trace). -/
theorem C3_stack_rewrite (env : RuntimeEnv) (s : RuntimeState) (d p : Nat)
    (hnh : (s.methods d).IsXposedHookedMethod = false)
    (hnb : (s.methods d).IsXposedOriginalMethod = false) :
    (enableXposedHook env s d p).1.threads = s.threads.map (fun t =>
      { frames := t.frames.map fun f => if f = d then s.nextMethodId else f,
        instrumented := true }) ∧
    ∃ es, (enableXposedHook env s d p).2.2 = es ++ [Event.resumeAll] ∧
      Event.resumeAll ∉ es ∧
      ∀ i < s.threads.length, Event.stackReplace i ∈ es ∧ Event.instrument i ∈ es := by
  constructor
  · unfold enableXposedHook
    rw [if_neg (by simp [hnh]), if_neg (by simp [hnb])]
    simp only [Function.update_same, ArtMethod.getXposedOriginalMethod]
    apply List.map_congr_left
    intro t _
    unfold stackReplaceMethodAndInstallInstrumentation
    simp
  · refine ⟨Event.suspendAll ::
      ((List.range s.threads.length).flatMap fun i =>
        [Event.stackReplace i, Event.instrument i]), ?_, ?_, ?_⟩
    · unfold enableXposedHook
      rw [if_neg (by simp [hnh]), if_neg (by simp [hnb])]
    · intro hmem
      rcases List.mem_cons.mp hmem with h | h
      · exact Event.noConfusion h
      · rcases List.mem_flatMap.mp h with ⟨i, _, hi⟩
        simp at hi
    · intro i hi
      constructor
      · exact List.mem_cons_of_mem _ (List.mem_flatMap.mpr
          ⟨i, List.mem_range.mpr hi, by simp⟩)
      · exact List.mem_cons_of_mem _ (List.mem_flatMap.mpr
          ⟨i, List.mem_range.mpr hi, by simp⟩)

/-- Witness for C3 at a concrete state: hooking method 0 of sampleState
(two threads, frames [0, 3] and [5, 0, 0]) rewrites exactly the frames
referencing method 0 and installs instrumentation before the safepoint
release. -/
theorem C3_witness :
    (enableXposedHook sampleEnv sampleState 0 5).1.threads = sampleState.threads.map (fun t =>
      { frames := t.frames.map fun f => if f = 0 then sampleState.nextMethodId else f,
        instrumented := true }) ∧
    ∃ es, (enableXposedHook sampleEnv sampleState 0 5).2.2 = es ++ [Event.resumeAll] ∧
      Event.resumeAll ∉ es ∧
      ∀ i < sampleState.threads.length,
        Event.stackReplace i ∈ es ∧ Event.instrument i ∈ es :=
  C3_stack_rewrite sampleEnv sampleState 0 5 (by decide) (by decide)

theorem jitLookupStep_header_contains (env : RuntimeEnv) (m : ArtMethod) (pc : Nat)
    (h : OatQuickMethodHeader)
    (hj : jitLookupStep env m pc = some (HeaderResult.header h)) :
    h.Contains pc = true := by
  unfold jitLookupStep at hj
  split at hj
  · split at hj
    · rename_i h0 heq
      split at hj
      · rename_i hcont
        simp only [Option.some.injEq, HeaderResult.header.injEq] at hj
        rw [← hj]
        exact hcont
      · simp at hj
    · split at hj <;> simp at hj
  · simp at hj

theorem oatStep_header_contains_or_fallback (env : RuntimeEnv) (m : ArtMethod) (pc : Nat)
    (h : OatQuickMethodHeader) (hpc : pc ≠ 0)
    (ho : oatStep env m pc = HeaderResult.header h) :
    h.Contains pc = true ∨
      (env.findOatMethod m = none ∧ h = headerFromEntryPoint env m.entryQuick) := by
  unfold oatStep at ho
  split at ho
  · rename_i hfind
    split at ho
    · split at ho <;> simp at ho
    · split at ho
      · split at ho <;> simp at ho
      · simp only [HeaderResult.header.injEq] at ho
        exact Or.inr ⟨hfind, ho.symm⟩
  · rename_i oatCode hfind
    split at ho
    · split at ho <;> simp at ho
    · split at ho
      · rename_i hz
        exact absurd (by simpa using hz) hpc
      · split at ho
        · rename_i hcont
          simp only [HeaderResult.header.injEq] at ho
          rw [← ho]
          exact Or.inl hcont
        · simp at ho

/-- C4 counterexample: with sampleEnv (no JIT, no oat table) and a plain
method whose entry point is the interpreter bridge, the locator at the
non-zero pc 5 takes the unit-tests compatibility fallback and returns the
header derived from the entry point, whose range does not contain 5 —
refuting the claim that every returned header contains a non-zero pc. -/
theorem C4_counterexample :
    ArtMethod.getOatQuickMethodHeader sampleEnv bridgeMethod 5 =
      HeaderResult.header { codeStart := 40, codeSize := 0 } ∧
    (5 : Nat) ≠ 0 ∧
    OatQuickMethodHeader.Contains { codeStart := 40, codeSize := 0 } 5 = false := by
  refine ⟨by decide, by decide, by decide⟩

/-- C4 amended: for a non-zero pc, whenever GetOatQuickMethodHeader
returns a header, either the header contains pc, or the result came from
the unit-tests compatibility fallback (no oat method is registered and
the header is the one derived from the existing entry point, returned
without a containment check); in particular every AOT-path violation is a
fatal fault rather than a returned mismatched header. -/
theorem C4_header_contains_amended (env : RuntimeEnv) (m : ArtMethod) (pc : Nat)
    (h : OatQuickMethodHeader) (hpc : pc ≠ 0)
    (hres : ArtMethod.getOatQuickMethodHeader env m pc = HeaderResult.header h) :
    h.Contains pc = true ∨
      (env.findOatMethod m = none ∧ h = headerFromEntryPoint env m.entryQuick) := by
  unfold ArtMethod.getOatQuickMethodHeader at hres
  split at hres
  · simp at hres
  · split at hres
    · simp at hres
    · split at hres
      · simp at hres
      · split at hres
        · simp at hres
        · split at hres
          · split at hres <;> simp at hres
          · split at hres
            · rename_i hfast
              simp only [HeaderResult.header.injEq] at hres
              rw [← hres]
              simp only [Bool.and_eq_true] at hfast
              exact Or.inl hfast.2
            · split at hres
              · rename_i r heq
                exact Or.inl (jitLookupStep_header_contains env m pc h (heq.trans (by rw [hres])))
              · exact oatStep_header_contains_or_fallback env m pc h hpc hres

/-- Witness for the amended C4 at a concrete input: with a 50-byte header
before every entry point, the locator on compiledMethod (code at 100) and
pc 120 takes the fast path, and the returned header contains 120. -/
theorem C4_witness :
    OatQuickMethodHeader.Contains { codeStart := 100, codeSize := 50 } 120 = true ∨
      (wideHeaderEnv.findOatMethod compiledMethod = none ∧
       ({ codeStart := 100, codeSize := 50 } : OatQuickMethodHeader) =
         headerFromEntryPoint wideHeaderEnv compiledMethod.entryQuick) :=
  C4_header_contains_amended wideHeaderEnv compiledMethod 120
    { codeStart := 100, codeSize := 50 } (by decide) (by decide)

theorem catchScan_pending_none (env : CatchEnv) (ex : Nat) :
    ∀ (handlers : List CatchHandlerEntry) (st : CatchScanState),
      st.pendingException = none →
      (catchScan env ex handlers st).2.pendingException = none := by
  intro handlers
  induction handlers with
  | nil =>
    intro st h
    simpa [catchScan] using h
  | cons entry rest ih =>
    intro st h
    unfold catchScan
    split
    · exact h
    · rename_i idx
      split
      · exact ih _ rfl
      · split
        · exact h
        · exact ih _ h

/-- C5: in the handler-table scan, a catch-all entry matches
unconditionally and stops the scan; a typed entry matches exactly when
its class resolves and is assignable-from the thrown exception class
(continuing otherwise); an unresolvable entry clears the pending error,
logs a diagnostic, and the scan continues with the next entry; and
FindCatchBlock never propagates a new exception out — the pending
exception after the call is exactly the in-flight exception it started
with. -/
theorem C5_catch_scan (env : CatchEnv) (ex : Nat) :
    (∀ (addr : Nat) (rest : List CatchHandlerEntry) (st : CatchScanState),
       catchScan env ex ({ typeIdx := none, handlerAddress := addr } :: rest) st =
         (some addr, st)) ∧
    (∀ (idx addr : Nat) (rest : List CatchHandlerEntry) (st : CatchScanState) (k : Nat),
       env.resolveType idx = some k →
       (env.isAssignableFrom k ex = true →
          catchScan env ex ({ typeIdx := some idx, handlerAddress := addr } :: rest) st =
            (some addr, st)) ∧
       (env.isAssignableFrom k ex = false →
          catchScan env ex ({ typeIdx := some idx, handlerAddress := addr } :: rest) st =
            catchScan env ex rest st)) ∧
    (∀ (idx addr : Nat) (rest : List CatchHandlerEntry) (st : CatchScanState),
       env.resolveType idx = none →
       catchScan env ex ({ typeIdx := some idx, handlerAddress := addr } :: rest) st =
         catchScan env ex rest
           { pendingException := none, warnings := st.warnings ++ [idx] }) ∧
    (∀ (handlers : List CatchHandlerEntry) (inFlight : Option ExceptionKind) (b : Bool),
       (findCatchBlock env handlers ex inFlight b).pendingException = inFlight) := by
  refine ⟨?_, ?_, ?_, ?_⟩
  · intro addr rest st
    rfl
  · intro idx addr rest st k hres
    constructor
    · intro hassign
      conv_lhs => rw [catchScan]
      simp [hres, hassign]
    · intro hassign
      conv_lhs => rw [catchScan]
      simp [hres, hassign]
  · intro idx addr rest st hres
    conv_lhs => rw [catchScan]
    simp [hres]
  · intro handlers inFlight b
    unfold findCatchBlock
    cases inFlight with
    | none =>
      simp only
      exact catchScan_pending_none env ex handlers _ rfl
    | some e => rfl

/-- Witness for C5 at concrete inputs: a catch-all at address 500 stops
the scan; the typed entry with index 1 (resolving to class 11, assignable
from class 7) matches at address 600; the unresolvable index 2 continues
the scan with a warning; and the in-flight exception is restored. -/
theorem C5_witness :
    catchScan sampleCatchEnv 7
      [{ typeIdx := none, handlerAddress := 500 },
       { typeIdx := some 1, handlerAddress := 600 }]
      { pendingException := none, warnings := [] } =
        (some 500, { pendingException := none, warnings := [] }) ∧
    catchScan sampleCatchEnv 7 [{ typeIdx := some 1, handlerAddress := 600 }]
      { pendingException := none, warnings := [] } =
        (some 600, { pendingException := none, warnings := [] }) ∧
    catchScan sampleCatchEnv 7 [{ typeIdx := some 2, handlerAddress := 300 }]
      { pendingException := none, warnings := [] } =
        catchScan sampleCatchEnv 7 []
          { pendingException := none, warnings := [] ++ [2] } ∧
    (findCatchBlock sampleCatchEnv [{ typeIdx := some 2, handlerAddress := 300 }] 7
      (some (ExceptionKind.other 4)) true).pendingException =
        some (ExceptionKind.other 4) :=
  ⟨(C5_catch_scan sampleCatchEnv 7).1 500
      [{ typeIdx := some 1, handlerAddress := 600 }] _,
   ((C5_catch_scan sampleCatchEnv 7).2.1 1 600 [] _ 11 (by decide)).1 (by decide),
   (C5_catch_scan sampleCatchEnv 7).2.2.1 2 300 [] _ (by decide),
   (C5_catch_scan sampleCatchEnv 7).2.2.2
     [{ typeIdx := some 2, handlerAddress := 300 }] (some (ExceptionKind.other 4)) true⟩

/-- C9: FindCatchBlock writes the has_no_move_exception out-parameter
only when a handler is found (to whether the first instruction at the
handler address is not MOVE_EXCEPTION); when no handler matches, the
out-parameter memory keeps the value the caller passed in. -/
theorem C9_out_param_written_only_on_match (env : CatchEnv)
    (handlers : List CatchHandlerEntry) (ex : Nat) (inFlight : Option ExceptionKind)
    (b : Bool) :
    ((findCatchBlock env handlers ex inFlight b).foundDexPc = none →
       (findCatchBlock env handlers ex inFlight b).hasNoMoveException = b) ∧
    (∀ addr, (findCatchBlock env handlers ex inFlight b).foundDexPc = some addr →
       (findCatchBlock env handlers ex inFlight b).hasNoMoveException =
         !(env.moveExceptionAt addr)) := by
  unfold findCatchBlock
  cases hscan : (catchScan env ex handlers { pendingException := none, warnings := [] }).1 with
  | none =>
    constructor
    · intro _
      simp [hscan]
    · intro addr haddr
      simp [hscan] at haddr
  | some a =>
    constructor
    · intro hnone
      simp [hscan] at hnone
    · intro addr haddr
      simp [hscan] at haddr ⊢
      rw [haddr]

/-- Witness for C9 at concrete inputs: with the unresolvable handler the
scan finds nothing and the out-parameter keeps the passed-in value true;
with the catch-all at address 500 (whose first instruction is
MOVE_EXCEPTION) the out-parameter is written to false. -/
theorem C9_witness :
    (findCatchBlock sampleCatchEnv [{ typeIdx := some 2, handlerAddress := 300 }] 7
       none true).hasNoMoveException = true ∧
    (findCatchBlock sampleCatchEnv [{ typeIdx := none, handlerAddress := 500 }] 7
       none true).hasNoMoveException = !(sampleCatchEnv.moveExceptionAt 500) :=
  ⟨(C9_out_param_written_only_on_match sampleCatchEnv
      [{ typeIdx := some 2, handlerAddress := 300 }] 7 none true).1 (by decide),
   (C9_out_param_written_only_on_match sampleCatchEnv
      [{ typeIdx := none, handlerAddress := 500 }] 7 none true).2 500 (by decide)⟩

/-- C6: with the runtime started, interpretation not forced, enough
native stack, and a null compiled-code entry point, Invoke writes a zero
value through the (non-null) result pointer and returns normally — no
StackOverflowError, transition fragment pushed and popped. -/
theorem C6_null_code_zero_result (env : InvokeEnv) (m : ArtMethod)
    (hstack : env.stackEnd ≤ env.frameAddress)
    (hstarted : env.runtimeStarted = true)
    (hforced : env.forcedInterpreter = false)
    (hnull : m.entryQuick = 0) :
    m.invoke env true =
      { resultWrite := some 0, threwStackOverflow := false,
        pushedFragment := true, poppedFragment := true } := by
  unfold ArtMethod.invoke
  rw [if_neg (Nat.not_lt.mpr hstack)]
  rw [if_neg (by simp [hstarted, hforced])]
  rw [if_neg (by simp [hnull])]
  simp

/-- Witness for C6 at a concrete input: sampleInvokeEnv (started runtime,
ample stack) and nullCodeMethod (no quick code). -/
theorem C6_witness :
    nullCodeMethod.invoke sampleInvokeEnv true =
      { resultWrite := some 0, threwStackOverflow := false,
        pushedFragment := true, poppedFragment := true } :=
  C6_null_code_zero_result sampleInvokeEnv nullCodeMethod (by decide) (by decide)
    (by decide) (by decide)

/-- C7: when the upfront stack-overflow check fails, Invoke raises
StackOverflowError and returns immediately: nothing is written to the
result and the transition fragment is never pushed. -/
theorem C7_stack_overflow_no_side_effects (env : InvokeEnv) (m : ArtMethod)
    (resultNonNull : Bool) (hstack : env.frameAddress < env.stackEnd) :
    m.invoke env resultNonNull =
      { resultWrite := none, threwStackOverflow := true,
        pushedFragment := false, poppedFragment := false } := by
  unfold ArtMethod.invoke
  rw [if_pos hstack]

/-- Witness for C7 at a concrete input: overflowInvokeEnv has its frame
address below the stack end bound. -/
theorem C7_witness :
    compiledMethod.invoke overflowInvokeEnv true =
      { resultWrite := none, threwStackOverflow := true,
        pushedFragment := false, poppedFragment := false } :=
  C7_stack_overflow_no_side_effects overflowInvokeEnv compiledMethod true (by decide)

/-- C8 counterexample: on the concrete hooked method, InvalidateCompiledCode
aborts with a fatal CHECK failure — it is not a synchronously reported
(thrown) usage error as the claim states. -/
theorem C8_counterexample :
    ArtMethod.invalidateCompiledCode sampleEnv hookedMethod = InvalidateResult.fatal ∧
    (ArtMethod.invalidateCompiledCode sampleEnv hookedMethod).isThrown = false := by
  exact ⟨by decide, by decide⟩

/-- C8 amended: InvalidateCompiledCode on a hooked descriptor is rejected
by a fatal assertion (process abort, no state mutated or returned), not a
reported usage error; on a non-hooked descriptor it sets the ignore-AOT
mark and then either requests JIT invalidation from the code cache (when
JIT compilation is in use) or sets the compiled-code entry point to the
interpreter bridge. -/
theorem C8_invalidate_amended (env : RuntimeEnv) (m : ArtMethod) :
    (m.IsXposedHookedMethod = true →
       m.invalidateCompiledCode env = InvalidateResult.fatal) ∧
    (m.IsXposedHookedMethod = false → env.useJitCompilation = true →
       m.invalidateCompiledCode env =
         InvalidateResult.ok { m with ignoreAotFlag := true } true) ∧
    (m.IsXposedHookedMethod = false → env.useJitCompilation = false →
       m.invalidateCompiledCode env =
         InvalidateResult.ok
           { m with ignoreAotFlag := true, entryQuick := env.quickToInterpreterBridge }
           false) := by
  have hmark : (if !m.ignoreAotFlag then { m with ignoreAotFlag := true } else m) =
      { m with ignoreAotFlag := true } := by
    by_cases h : m.ignoreAotFlag
    · cases m
      simp_all
    · simp [h]
  refine ⟨?_, ?_, ?_⟩
  · intro hh
    unfold ArtMethod.invalidateCompiledCode
    rw [if_pos hh]
  · intro hh hjit
    unfold ArtMethod.invalidateCompiledCode
    rw [if_neg (by simp [hh]), hmark, if_pos hjit]
  · intro hh hjit
    unfold ArtMethod.invalidateCompiledCode
    rw [if_neg (by simp [hh]), hmark, if_neg (by simp [hjit])]

/-- Witness for the amended C8 at concrete inputs: the hooked method is
rejected fatally; plainMethod (non-hooked, JIT not in use) gets the
ignore-AOT mark and the interpreter-bridge entry point. -/
theorem C8_witness :
    ArtMethod.invalidateCompiledCode sampleEnv hookedMethod = InvalidateResult.fatal ∧
    ArtMethod.invalidateCompiledCode sampleEnv plainMethod =
      InvalidateResult.ok
        { plainMethod with ignoreAotFlag := true,
                           entryQuick := sampleEnv.quickToInterpreterBridge }
        false :=
  ⟨(C8_invalidate_amended sampleEnv hookedMethod).1 (by decide),
   (C8_invalidate_amended sampleEnv plainMethod).2.2 (by decide) (by decide)⟩

theorem lor_pow_testBit_other (f a b : Nat) (hab : a ≠ b) :
    (f ||| 2 ^ a).testBit b = f.testBit b := by
  rw [Nat.testBit_lor, Nat.testBit_two_pow_of_ne hab]
  simp

theorem lor_pow_testBit_self (f a : Nat) : (f ||| 2 ^ a).testBit a = true := by
  rw [Nat.testBit_lor, Nat.testBit_two_pow_self]
  simp

theorem fastNative_preserves_other_flag (f a b : Nat) (hab : a ≠ b) :
    (((f ||| 2 ^ a) &&& 2 ^ b) != 0) = ((f &&& 2 ^ b) != 0) := by
  rw [flagMask_bne_eq_testBit, flagMask_bne_eq_testBit, lor_pow_testBit_other f a b hab]

/-- C10: RegisterNative with is_fast on a plain (non-hooked) native
method sets the fast-native flag and installs the native pointer; a
subsequent UnregisterNative on that method then hits the fatal
CHECK(IsNative() && !IsFastNative()) instead of restoring the dlsym
lookup stub. -/
theorem C10_fast_native_then_unregister_fatal (env : RuntimeEnv)
    (heap : Nat → ArtMethod) (mid addr fuel : Nat)
    (hnh : (heap mid).IsXposedHookedMethod = false)
    (hn : (heap mid).IsNative = true)
    (hnf : (heap mid).IsFastNative = false)
    (ha : addr ≠ 0) :
    ∃ heap2, registerNative env fuel heap mid addr true = NativeRegResult.ok heap2 ∧
      (heap2 mid).IsFastNative = true ∧
      (heap2 mid).entryJni = JniEntry.native addr ∧
      unregisterNative env fuel heap2 mid = NativeRegResult.fatal := by
  have hfast19 : kAccFastNative = 2 ^ 19 := by norm_num [kAccFastNative]
  have hhook28 : kAccXposedHookedMethod = 2 ^ 28 := by norm_num [kAccXposedHookedMethod]
  have hnat8 : kAccNative = 2 ^ 8 := by norm_num [kAccNative]
  simp only [ArtMethod.IsXposedHookedMethod] at hnh
  simp only [ArtMethod.IsNative] at hn
  simp only [ArtMethod.IsFastNative] at hnf
  have hq1 : ((((heap mid).accessFlags ||| kAccFastNative) &&& kAccXposedHookedMethod) != 0)
      = false := by
    rw [hfast19, hhook28, fastNative_preserves_other_flag _ 19 28 (by decide)]
    rw [← hhook28]
    exact hnh
  have hq2 : ((((heap mid).accessFlags ||| kAccFastNative) &&& kAccNative) != 0) = true := by
    rw [hfast19, hnat8, fastNative_preserves_other_flag _ 19 8 (by decide)]
    rw [← hnat8]
    exact hn
  have hq3 : ((((heap mid).accessFlags ||| kAccFastNative) &&& kAccFastNative) != 0) = true := by
    rw [hfast19, flagMask_bne_eq_testBit, lor_pow_testBit_self]
  refine ⟨Function.update heap mid
    { heap mid with
        accessFlags := (heap mid).accessFlags ||| kAccFastNative,
        entryJni := JniEntry.native addr }, ?_, ?_, ?_, ?_⟩
  · conv_lhs => rw [registerNative.eq_def]
    rw [if_neg (by simp [ArtMethod.IsXposedHookedMethod, hnh])]
    rw [if_neg (by simp [ArtMethod.IsNative, hn])]
    rw [if_neg (by simp [ArtMethod.IsFastNative, hnf])]
    rw [if_neg (by simp [ha])]
    rfl
  · rw [Function.update_same]
    simp only [ArtMethod.IsFastNative]
    exact hq3
  · rw [Function.update_same]
  · conv_lhs => rw [unregisterNative.eq_def]
    rw [Function.update_same]
    rw [if_neg (by simp only [ArtMethod.IsXposedHookedMethod, hq1]; simp)]
    rw [if_pos (by simp only [ArtMethod.IsNative, ArtMethod.IsFastNative, hq2, hq3]; simp)]

/-- Witness for C10 at a concrete input: the plain native method at id 0
gets registered with a fast-native pointer at address 7, after which
UnregisterNative is fatal. -/
theorem C10_witness :
    ∃ heap2,
      registerNative sampleEnv 0 (fun _ => nativeSampleMethod) 0 7 true =
        NativeRegResult.ok heap2 ∧
      (heap2 0).IsFastNative = true ∧
      (heap2 0).entryJni = JniEntry.native 7 ∧
      unregisterNative sampleEnv 0 heap2 0 = NativeRegResult.fatal :=
  C10_fast_native_then_unregister_fatal sampleEnv (fun _ => nativeSampleMethod) 0 7 0
    (by decide) (by decide) (by decide) (by decide)

end ArtModel
